import Mathlib

/-!
Verification of the FinReason Financial Analytics Engine.

This file gives a shallow embedding of the engine's numeric transforms:

* `financial_analyzer.py` — trend classification, inline Z-score anomaly
  detection, budget performance, financial health scoring;
* `ml_models/predictor.py` — spending prediction, windowed multi-point
  anomaly detection, savings optimization.

Modelling conventions: Python floats are idealised as exact rationals; where
the source takes a square root (`np.std`) or an exponential (`np.exp`) the
value lives in `ℝ`.  Python's `round(x, n)` (banker's rounding) is modelled
by `pyRoundQ` / `pyRoundR`.  Python dicts keyed by category are modelled as
insertion-ordered association lists, matching CPython's ordered-dict
semantics.  `datetime.now()` is passed in explicitly as a `MonthDate`
parameter.  Formatted message strings whose only data content is a rounded
number are modelled by that number (the surrounding literal text carries no
information).
-/

namespace FinReason

/-- Python's builtin `round` to the nearest integer on `ℚ`: nearest integer,
ties go to the even integer (banker's rounding). -/
def pyRoundQ (x : ℚ) : ℤ :=
  if Int.fract x < 1/2 then ⌊x⌋
  else if 1/2 < Int.fract x then ⌊x⌋ + 1
  else if Even ⌊x⌋ then ⌊x⌋ else ⌊x⌋ + 1

/-- Python `round(x, 2)` on `ℚ`. -/
def r2Q (x : ℚ) : ℚ := (pyRoundQ (100 * x) : ℚ) / 100

open Classical in
/-- Python's builtin `round` to the nearest integer on `ℝ` (banker's
rounding), used where the rounded quantity is irrational. -/
noncomputable def pyRoundR (x : ℝ) : ℤ :=
  if Int.fract x < 1/2 then ⌊x⌋
  else if 1/2 < Int.fract x then ⌊x⌋ + 1
  else if Even ⌊x⌋ then ⌊x⌋ else ⌊x⌋ + 1

/-- Python `round(x, 2)` on `ℝ`. -/
noncomputable def r2R (x : ℝ) : ℝ := (pyRoundR (100 * x) : ℝ) / 100

/-- Python `round(x, 1)` on `ℝ` (the `:.1f` format used in reason strings). -/
noncomputable def r1R (x : ℝ) : ℝ := (pyRoundR (10 * x) : ℝ) / 10

/-- Python's builtin `min` on two rationals. -/
def pymin (a b : ℚ) : ℚ := if a ≤ b then a else b

/-- Python's builtin `max` on two rationals. -/
def pymax (a b : ℚ) : ℚ := if b ≤ a then a else b

/-- `np.mean` over a list of rationals (`sum / len`; the engine only ever
takes the mean of a non-empty list). -/
def npMeanQ (xs : List ℚ) : ℚ := xs.sum / (xs.length : ℚ)

/-- Population variance, the square of `np.std`. -/
def npVarQ (xs : List ℚ) : ℚ :=
  ((xs.map fun x => (x - npMeanQ xs) ^ 2).sum) / (xs.length : ℚ)

/-- `np.std`: population standard deviation (square root of `npVarQ`). -/
noncomputable def npStd (xs : List ℚ) : ℝ := Real.sqrt ((npVarQ xs : ℚ) : ℝ)

namespace FinancialAnalyzer

/-- The four named sub-scores of `get_financial_health_score`
(`financial_analyzer.py`, the `scores` dict). -/
structure HealthBreakdown where
  savings_rate : ℚ
  debt_ratio : ℚ
  emergency_fund : ℚ
  income_stability : ℚ
deriving DecidableEq, Repr

/-- Result dictionary of `get_financial_health_score`. -/
structure HealthScore where
  overall_score : ℚ
  breakdown : HealthBreakdown
  rating : String
  recommendations : List String
deriving DecidableEq, Repr

/-- `FinancialAnalyzer._get_health_rating`. -/
def _get_health_rating (score : ℚ) : String :=
  if score ≥ 80 then "EXCELLENT"
  else if score ≥ 60 then "GOOD"
  else if score ≥ 40 then "FAIR"
  else "POOR"

/-- `FinancialAnalyzer._get_health_recommendations`. -/
def _get_health_recommendations (scores : HealthBreakdown) : List String :=
  (if scores.savings_rate < 10 then ["Increase saving rate by reducing expenses"] else []) ++
  (if scores.debt_ratio < 10 then ["Focus on paying down debt"] else []) ++
  (if scores.emergency_fund < 10 then ["Build emergency fund with 3-6 months of expenses"] else [])

/-- `FinancialAnalyzer.get_financial_health_score`: savings-rate, debt-ratio,
emergency-fund and income-stability sub-scores, their sum as the overall
score, the rating and the recommendations. -/
def get_financial_health_score (net_worth monthly_income monthly_expenses debt_ratio : ℚ) :
    HealthScore :=
  let savings_rate := if monthly_income > 0 then (monthly_income - monthly_expenses) / monthly_income else 0
  let savings_score := pymin 25 (pymax 0 (savings_rate * 100 / 20))
  let debt_score := pymax 0 (25 * (1 - pymin 1 debt_ratio))
  let months_raw := if monthly_expenses > 0 then net_worth / monthly_expenses else 0
  let months_of_expenses := pymin months_raw 12
  let emergency_score := pymin 25 (months_of_expenses * 25 / 6)
  let scores : HealthBreakdown :=
    { savings_rate := savings_score
      debt_ratio := debt_score
      emergency_fund := emergency_score
      income_stability := 15 }
  let total_score := savings_score + debt_score + emergency_score + 15
  { overall_score := total_score
    breakdown := scores
    rating := _get_health_rating total_score
    recommendations := _get_health_recommendations scores }

/-- `FinancialAnalyzer._calculate_trend`: splits the sequence at its midpoint
(`len // 2`), compares the halves' means, classifies UP / DOWN / STABLE with
a ±10% band. -/
def _calculate_trend (amounts : List ℚ) : String :=
  if amounts.length < 2 then "STABLE"
  else
    let first_half := npMeanQ (amounts.take (amounts.length / 2))
    let second_half := npMeanQ (amounts.drop (amounts.length / 2))
    let change_percent := if first_half > 0 then (second_half - first_half) / first_half else 0
    if change_percent > 0.1 then "UP"
    else if change_percent < -0.1 then "DOWN"
    else "STABLE"

open Classical in
/-- The z-score computed inside `FinancialAnalyzer._detect_anomalies`:
`abs((recent_expense - mean) / std) if std > 0 else 0`, where
`recent_expense = expenses[-1]`. -/
noncomputable def detectZ (expenses : List ℚ) : ℝ :=
  if npStd expenses > 0 then
    |((expenses.getLast?.getD 0 : ℚ) : ℝ) - ((npMeanQ expenses : ℚ) : ℝ)| / npStd expenses
  else 0

open Classical in
/-- `FinancialAnalyzer._detect_anomalies` on a category's expense amounts.
Returns the `(anomaly_detected, reason)` pair; the reason message's data
content (the z-score formatted to one decimal) is modelled as the rounded
number itself. -/
noncomputable def _detect_anomalies (expenses : List ℚ) (threshold : ℝ) : Bool × Option ℝ :=
  if expenses.length < 3 then (false, none)
  else if detectZ expenses > threshold then (true, some (r1R (detectZ expenses)))
  else (false, none)

/-- A calendar date reduced to the fields `analyze_budget_performance`
inspects (`dt.year`, `dt.month`). -/
structure MonthDate where
  year : Int
  month : Nat
deriving DecidableEq, Repr

/-- Analyzer-side transaction: `financial_analyzer.py` indexes the fields
`date`, `category`, `type`, `amount` directly (no defaults). -/
structure ATx where
  date : MonthDate
  category : String
  type : String
  amount : ℚ
deriving DecidableEq, Repr

/-- One per-category entry of the `analyze_budget_performance` result. -/
structure BudgetStatus where
  budget : ℚ
  spent : ℚ
  remaining : ℚ
  spent_percent : ℚ
  status : String
deriving DecidableEq, Repr

/-- Current-calendar-month filter of `analyze_budget_performance`
(exact year and month match against "now"). -/
def currentMonth (now : MonthDate) (transactions : List ATx) : List ATx :=
  transactions.filter fun t => t.date.year == now.year && t.date.month == now.month

/-- Current-month expense sum for one category. -/
def categorySpent (current : List ATx) (category : String) : ℚ :=
  ((current.filter fun t => t.category == category && t.type == "EXPENSE").map (·.amount)).sum

/-- The per-category dictionary built in the body of
`analyze_budget_performance`. -/
def budgetEntry (current : List ATx) (category : String) (budget_amount : ℚ) : BudgetStatus :=
  let spent := categorySpent current category
  let spent_percent := if budget_amount > 0 then spent / budget_amount * 100 else 0
  { budget := budget_amount
    spent := spent
    remaining := budget_amount - spent
    spent_percent := spent_percent
    status := if spent_percent > 100 then "OVER"
              else if spent_percent > 80 then "WARNING"
              else "ON_TRACK" }

/-- `FinancialAnalyzer.analyze_budget_performance`.  With an empty
transaction list, `pd.DataFrame(transactions)` has no columns, so the very
next line `df['date'] = pd.to_datetime(df['date'])` raises
`KeyError: 'date'`; this is modelled as an error result.  Otherwise the
result maps each budgeted category to its `BudgetStatus`. -/
def analyze_budget_performance (now : MonthDate) (transactions : List ATx)
    (budgets : List (String × ℚ)) : Except String (List (String × BudgetStatus)) :=
  if transactions.isEmpty then Except.error "KeyError: date"
  else
    Except.ok (budgets.map fun p => (p.1, budgetEntry (currentMonth now transactions) p.1 p.2))

end FinancialAnalyzer

/-- Predictor-side transaction: `ml_models/predictor.py` reads every field
through `dict.get` with a default (`"other"` for category, `0` for amount,
`""` for date and description), so each field is optional. -/
structure PTx where
  category : Option String
  amount : Option ℚ
  date : Option String
  description : Option String
deriving DecidableEq, Repr

/-- Replaces each optionally-present field by its `dict.get` default, making
the defaults explicit. -/
def defaulted (tx : PTx) : PTx :=
  { category := some (tx.category.getD "other")
    amount := some (tx.amount.getD 0)
    date := some (tx.date.getD "")
    description := some (tx.description.getD "") }

/-- One step of building a Python dict of lists: append `amount` to the entry
for `category`, creating it at the end on first sight (CPython dicts preserve
insertion order). -/
def addToGroup (grouped : List (String × List ℚ)) (category : String) (amount : ℚ) :
    List (String × List ℚ) :=
  match grouped with
  | [] => [(category, [amount])]
  | (c, xs) :: rest =>
    if c = category then (c, xs ++ [amount]) :: rest
    else (c, xs) :: addToGroup rest category amount

namespace SpendingPredictor

/-- `SpendingPredictor._group_by_category`. -/
def _group_by_category (transactions : List PTx) : List (String × List ℚ) :=
  transactions.foldl (fun g tx => addToGroup g (tx.category.getD "other") (tx.amount.getD 0)) []

/-- `SpendingPredictor._calculate_trend`: least-squares slope and intercept
over `x = 0, 1, ..., n-1`. -/
def _calculate_trend (amounts : List ℚ) : ℚ × ℚ :=
  if amounts.length < 2 then (0, if amounts.isEmpty then 0 else npMeanQ amounts)
  else
    let xs := (List.range amounts.length).map fun i => (i : ℚ)
    let mean_x := npMeanQ xs
    let mean_y := npMeanQ amounts
    let numerator := ((xs.zip amounts).map fun p => (p.1 - mean_x) * (p.2 - mean_y)).sum
    let denominator := (xs.map fun x => (x - mean_x) ^ 2).sum
    let slope := if denominator ≠ 0 then numerator / denominator else 0
    (slope, mean_y - slope * mean_x)

open Classical in
/-- `np.linspace(0, 1, n)`: `n` evenly spaced points from 0 to 1 inclusive
(`[0.0]` when `n = 1`). -/
noncomputable def linspace01 (n : ℕ) : List ℝ :=
  (List.range n).map fun i => if n ≤ 1 then 0 else (i : ℝ) / ((n : ℝ) - 1)

/-- `SpendingPredictor._predict_next_period`: exponentially weighted recent
average plus 10% of a 5-period linear-trend projection.  The `intercept`
argument is accepted and unused, exactly as in the source. -/
noncomputable def _predict_next_period (amounts : List ℚ) (trend : ℚ) (intercept : ℚ) : ℝ :=
  if amounts.isEmpty then 0
  else
    let weights := (linspace01 amounts.length).map Real.exp
    let total := weights.sum
    let nweights := weights.map fun w => w / total
    let recent_avg := ((amounts.zip nweights).map fun p => ((p.1 : ℚ) : ℝ) * p.2).sum
    recent_avg + (((trend : ℚ) : ℝ) * 5) * 0.1

open Classical in
/-- `SpendingPredictor._calculate_confidence`: confidence from the
coefficient of variation, clamped into `[0.3, 1.0]`. -/
noncomputable def _calculate_confidence (amounts : List ℚ) : ℝ :=
  if amounts.length < 2 then 0.5
  else
    let mean := npMeanQ amounts
    let std := npStd amounts
    let cv : ℝ := if mean > 0 then std / (((mean : ℚ) : ℝ) + 1) else 0
    min 1.0 (max 0.3 (1 - cv * 0.5))

/-- The two mappings of a successful `predict_spending` result. -/
structure PredictionResult where
  predicted_spending : List (String × ℝ)
  confidence : List (String × ℝ)

/-- One category's entry of the `predictions` dict of `predict_spending`
(skipped when the category has fewer than 2 amounts). -/
noncomputable def predictionOf (p : String × List ℚ) : Option (String × ℝ) :=
  if p.2.length < 2 then none
  else
    let ti := _calculate_trend p.2
    some (p.1, max 0 (r2R (_predict_next_period p.2 ti.1 ti.2)))

/-- One category's entry of the `confidence` dict of `predict_spending`. -/
noncomputable def confidenceOf (p : String × List ℚ) : Option (String × ℝ) :=
  if p.2.length < 2 then none
  else some (p.1, _calculate_confidence p.2)

/-- The successful-case payload of `predict_spending`. -/
noncomputable def predictPayload (transactions : List PTx) : PredictionResult :=
  { predicted_spending := (_group_by_category transactions).filterMap predictionOf
    confidence := (_group_by_category transactions).filterMap confidenceOf }

open Classical in
/-- `SpendingPredictor.predict_spending`: with fewer than 5 transactions an
explicit error dictionary is returned; otherwise categories with at least 2
amounts get a non-negative rounded prediction and a confidence score. -/
noncomputable def predict_spending (transactions : List PTx) :
    Except String PredictionResult :=
  if transactions.length < 5 then Except.error "Insufficient transaction history"
  else Except.ok (predictPayload transactions)

end SpendingPredictor

namespace AnomalyDetector

/-- The per-transaction record kept by
`AnomalyDetector._group_by_category_with_metadata`. -/
structure MetaTx where
  amount : ℚ
  date : String
  description : String
deriving DecidableEq, Repr

/-- One step of building the metadata dict of lists. -/
def addToGroupMeta (grouped : List (String × List MetaTx)) (category : String) (m : MetaTx) :
    List (String × List MetaTx) :=
  match grouped with
  | [] => [(category, [m])]
  | (c, xs) :: rest =>
    if c = category then (c, xs ++ [m]) :: rest
    else (c, xs) :: addToGroupMeta rest category m

/-- `AnomalyDetector._group_by_category_with_metadata`. -/
def _group_by_category_with_metadata (transactions : List PTx) :
    List (String × List MetaTx) :=
  transactions.foldl
    (fun g tx => addToGroupMeta g (tx.category.getD "other")
      { amount := tx.amount.getD 0
        date := tx.date.getD ""
        description := tx.description.getD "" }) []

/-- The z-score formula of the windowed detector,
`(value - mean) / (std + 0.01)`, without the `std > 0` guard. -/
noncomputable def zFormula (amounts : List ℚ) (value : ℚ) : ℝ :=
  (((value : ℚ) : ℝ) - ((npMeanQ amounts : ℚ) : ℝ)) / (npStd amounts + 0.01)

open Classical in
/-- The z-score as computed in `AnomalyDetector.detect_anomalies`:
`(item["amount"] - mean) / (std + 0.01) if std > 0 else 0`. -/
noncomputable def anomalyZ (amounts : List ℚ) (value : ℚ) : ℝ :=
  if npStd amounts > 0 then zFormula amounts value else 0

/-- An entry of the anomalies list.  The reason message's data content (the
sigma figure formatted to one decimal) is modelled as the rounded number. -/
structure AnomalyEntry where
  category : String
  amount : ℚ
  date : String
  z_score : ℝ
  average : ℚ
  reason : ℝ

/-- The dictionary appended for a flagged transaction. -/
noncomputable def mkAnomalyEntry (category : String) (amounts : List ℚ) (item : MetaTx) :
    AnomalyEntry :=
  { category := category
    amount := item.amount
    date := item.date
    z_score := r2R (anomalyZ amounts item.amount)
    average := r2Q (npMeanQ amounts)
    reason := r1R |anomalyZ amounts item.amount| }

/-- Python `l[-5:]`: the last (at most) 5 elements. -/
def last5 {α : Type} (l : List α) : List α := l.drop (l.length - 5)

/-- Result dictionary of `detect_anomalies`.  Below 10 transactions the code
returns `{"anomalies": [], "reason": "Insufficient data"}` (no count);
otherwise `{"anomalies": ..., "count": ...}` (no reason). -/
structure AnomalyReport where
  anomalies : List AnomalyEntry
  reason : Option String
  count : Option Nat

open Classical in
/-- The inner per-category loop of `detect_anomalies`: categories with fewer
than 3 transactions are skipped, otherwise each of the last 5 transactions
whose z-score exceeds the threshold in absolute value is flagged. -/
noncomputable def categoryAnomalies (z_threshold : ℝ) (p : String × List MetaTx) :
    List AnomalyEntry :=
  if p.2.length < 3 then []
  else
    let amounts := p.2.map (·.amount)
    (last5 p.2).filterMap fun item =>
      if |anomalyZ amounts item.amount| > z_threshold then
        some (mkAnomalyEntry p.1 amounts item)
      else none

/-- The anomalies list accumulated over all categories. -/
noncomputable def anomaliesOf (z_threshold : ℝ) (transactions : List PTx) :
    List AnomalyEntry :=
  (_group_by_category_with_metadata transactions).flatMap (categoryAnomalies z_threshold)

open Classical in
/-- `AnomalyDetector.detect_anomalies` with threshold `z_threshold`
(constructor default 2.5): for each category with at least 3 transactions,
the last 5 transactions are tested against the full-history mean/std. -/
noncomputable def detect_anomalies (z_threshold : ℝ) (transactions : List PTx) :
    AnomalyReport :=
  if transactions.length < 10 then
    { anomalies := [], reason := some "Insufficient data", count := none }
  else
    { anomalies := anomaliesOf z_threshold transactions
      reason := none
      count := some (anomaliesOf z_threshold transactions).length }

end AnomalyDetector

namespace SavingsOptimizer

/-- One step of accumulating `category_totals`
(`category_totals[cat] = category_totals.get(cat, 0) + amount`). -/
def addTotal (totals : List (String × ℚ)) (category : String) (amount : ℚ) :
    List (String × ℚ) :=
  match totals with
  | [] => [(category, amount)]
  | (c, t) :: rest =>
    if c = category then (c, t + amount) :: rest
    else (c, t) :: addTotal rest category amount

/-- One entry of the optimizations list (15% reduction target, annualized). -/
structure OptEntry where
  category : String
  current_spend : ℚ
  suggested_reduction : ℚ
  target_spend : ℚ
  potential_savings : ℚ
deriving DecidableEq, Repr

/-- Result of `optimize_savings`.  The empty-transactions branch returns only
`{"optimizations": []}` — without the total —, modelled by `none`. -/
structure SavingsResult where
  optimizations : List OptEntry
  total_potential_annual_savings : Option ℚ
deriving DecidableEq, Repr

/-- The dictionary appended per over-budget category. -/
def mkOptEntry (p : String × ℚ) : OptEntry :=
  let reduction_target := p.2 * 0.15
  { category := p.1
    current_spend := r2Q p.2
    suggested_reduction := r2Q reduction_target
    target_spend := r2Q (p.2 - reduction_target)
    potential_savings := r2Q (reduction_target * 12) }

/-- The `category_totals` dict: per-category sum of every transaction's
amount, regardless of kind. -/
def categoryTotals (transactions : List PTx) : List (String × ℚ) :=
  transactions.foldl (fun g tx => addTotal g (tx.category.getD "other") (tx.amount.getD 0)) []

/-- The sorted optimizations list built for a non-empty transaction list:
categories above 25% of the budget limit, descending by total (Python's
stable `sorted(..., reverse=True)`). -/
def optimizationsOf (transactions : List PTx) (budget_limit : ℚ) : List OptEntry :=
  (((categoryTotals transactions).filter fun p => decide (budget_limit * 0.25 < p.2)).mergeSort
    fun a b => decide (b.2 ≤ a.2)).map mkOptEntry

/-- `SavingsOptimizer.optimize_savings`: totals per category over all
transactions (all kinds — the documented quirk), keeps categories above 25%
of the budget limit, sorts them descending by total, and annualizes the 15%
reduction. -/
def optimize_savings (transactions : List PTx) (budget_limit : ℚ) : SavingsResult :=
  if transactions.isEmpty then { optimizations := [], total_potential_annual_savings := none }
  else
    { optimizations := optimizationsOf transactions budget_limit
      total_potential_annual_savings :=
        some (r2Q (((optimizationsOf transactions budget_limit).map (·.potential_savings)).sum)) }

end SavingsOptimizer

/-- Convenience constructor for a fully-populated predictor-side transaction. -/
def ptx (category : String) (amount : ℚ) (date : String) : PTx :=
  ⟨some category, some amount, some date, none⟩

/-- Example transactions for the prediction-bounds witness (5 transactions). -/
def exPredTxs : List PTx :=
  [ptx "groceries" 50 "2024-12-01", ptx "groceries" 75 "2024-12-05",
   ptx "groceries" 60 "2024-12-10", ptx "food" 300 "2024-12-02",
   ptx "food" 200 "2024-12-03"]

/-- Example transactions for the anomaly-detector witness (10 transactions). -/
def exAnomTxs : List PTx :=
  [ptx "groceries" 50 "2024-12-01", ptx "groceries" 51 "2024-12-02",
   ptx "groceries" 49 "2024-12-03", ptx "groceries" 50 "2024-12-04",
   ptx "groceries" 500 "2024-12-05", ptx "food" 30 "2024-12-01",
   ptx "food" 31 "2024-12-02", ptx "food" 29 "2024-12-03",
   ptx "rent" 1000 "2024-12-01", ptx "rent" 1000 "2024-12-02"]

/-- Example transactions for the savings-optimizer witness. -/
def exOptTxs : List PTx :=
  [ptx "entertainment" 1400 "2024-12-01", ptx "groceries" 185 "2024-12-02"]

/-- Example current month for the budget witnesses. -/
def exNow : FinancialAnalyzer.MonthDate := ⟨2025, 10⟩

/-- Example transactions for the budget-status witness. -/
def exBudgetTxs : List FinancialAnalyzer.ATx :=
  [⟨⟨2025, 10⟩, "groceries", "EXPENSE", 420⟩]

/-- Example budget map for the budget-status witness. -/
def exBudgets : List (String × ℚ) := [("groceries", 400)]

/-- The budget performance computed on the example input. -/
def exBudgetPerf : List (String × FinancialAnalyzer.BudgetStatus) :=
  [("groceries", ⟨400, 420, -20, 105, "OVER"⟩)]

/-- The mean of a constant non-empty list is that constant. -/
theorem npMeanQ_const {xs : List ℚ} {c : ℚ} (hne : xs ≠ []) (h : ∀ x ∈ xs, x = c) :
    npMeanQ xs = c := by
  have hlen : (xs.length : ℚ) ≠ 0 := by
    simpa using List.length_pos.mpr hne |>.ne'
  have hsum : xs.sum = (xs.length : ℚ) * c := by
    rw [List.sum_eq_card_nsmul xs c h, nsmul_eq_mul]
  rw [npMeanQ, hsum, mul_div_cancel_left₀ c hlen]

/-- In a list of non-negative rationals summing to zero, every element is
zero. -/
theorem list_sum_zero_all_zero {l : List ℚ} (h0 : ∀ x ∈ l, 0 ≤ x) (hs : l.sum = 0) :
    ∀ x ∈ l, x = 0 := by
  induction l with
  | nil => intro x hx; cases hx
  | cons a l ih =>
    have ha : 0 ≤ a := h0 a (List.mem_cons_self a l)
    have hl : 0 ≤ l.sum := List.sum_nonneg fun x hx => h0 x (List.mem_cons_of_mem a hx)
    have hsum : a + l.sum = 0 := by simpa using hs
    have ha0 : a = 0 := by linarith
    have hl0 : l.sum = 0 := by linarith
    intro x hx
    rcases List.mem_cons.mp hx with rfl | hx
    · exact ha0
    · exact ih (fun y hy => h0 y (List.mem_cons_of_mem a hy)) hl0 x hx

/-- Population variance is non-negative. -/
theorem npVarQ_nonneg (xs : List ℚ) : 0 ≤ npVarQ xs := by
  apply div_nonneg
  · exact List.sum_nonneg fun y hy => by
      obtain ⟨x, -, rfl⟩ := List.mem_map.mp hy
      positivity
  · positivity

/-- The variance of a constant list is zero. -/
theorem npVarQ_const {xs : List ℚ} {c : ℚ} (h : ∀ x ∈ xs, x = c) : npVarQ xs = 0 := by
  rcases eq_or_ne xs [] with rfl | hne
  · simp [npVarQ]
  · have hm : npMeanQ xs = c := npMeanQ_const hne h
    have : ∀ y ∈ xs.map fun x => (x - npMeanQ xs) ^ 2, y = 0 := by
      intro y hy
      obtain ⟨x, hx, rfl⟩ := List.mem_map.mp hy
      rw [hm, h x hx, sub_self]
      ring
    rw [npVarQ, List.sum_eq_card_nsmul _ 0 this]
    simp

/-- `np.std` is non-negative. -/
theorem npStd_nonneg (xs : List ℚ) : 0 ≤ npStd xs := Real.sqrt_nonneg _

/-- Zero variance gives zero standard deviation. -/
theorem npStd_of_var_zero {xs : List ℚ} (h : npVarQ xs = 0) : npStd xs = 0 := by
  rw [npStd, h]
  simp

/-- A non-positive standard deviation is zero. -/
theorem npStd_eq_zero_of_not_pos {xs : List ℚ} (h : ¬ npStd xs > 0) : npStd xs = 0 :=
  le_antisymm (not_lt.mp h) (npStd_nonneg xs)

/-- With zero standard deviation every element equals the mean. -/
theorem eq_mean_of_npStd_zero {xs : List ℚ} (h : npStd xs = 0) {x : ℚ} (hx : x ∈ xs) :
    x = npMeanQ xs := by
  have hvar : npVarQ xs = 0 := by
    have h0 : (0 : ℝ) ≤ (npVarQ xs : ℚ) := by exact_mod_cast npVarQ_nonneg xs
    have := (Real.sqrt_eq_zero h0).mp h
    exact_mod_cast this
  have hne : xs ≠ [] := List.ne_nil_of_mem hx
  have hlen : (xs.length : ℚ) ≠ 0 := by
    simpa using List.length_pos.mpr hne |>.ne'
  have hsum : (xs.map fun y => (y - npMeanQ xs) ^ 2).sum = 0 := by
    rw [npVarQ, div_eq_zero_iff] at hvar
    tauto
  have hterm : (x - npMeanQ xs) ^ 2 = 0 := by
    refine list_sum_zero_all_zero (fun y hy => ?_) hsum _ (List.mem_map_of_mem _ hx)
    obtain ⟨z, -, rfl⟩ := List.mem_map.mp hy
    positivity
  have := pow_eq_zero_iff (n := 2) (by norm_num) |>.mp hterm
  linarith [sub_eq_zero.mp this]

/-- Claim C1 (counterexample): on the spec's Example 3 input the code does
NOT return the sub-scores, overall score and rating the claim states — the
savings-rate formula `savings_rate * 100 / 20` yields 2.5, not 25. -/
theorem health_example_claim_false :
    ¬ ((FinancialAnalyzer.get_financial_health_score 50000 5000 2500 0.15).breakdown.savings_rate = 25 ∧
       (FinancialAnalyzer.get_financial_health_score 50000 5000 2500 0.15).breakdown.debt_ratio = 21.25 ∧
       (FinancialAnalyzer.get_financial_health_score 50000 5000 2500 0.15).breakdown.emergency_fund = 25 ∧
       (FinancialAnalyzer.get_financial_health_score 50000 5000 2500 0.15).breakdown.income_stability = 15 ∧
       (FinancialAnalyzer.get_financial_health_score 50000 5000 2500 0.15).overall_score = 86.25 ∧
       (FinancialAnalyzer.get_financial_health_score 50000 5000 2500 0.15).rating = "EXCELLENT") := by
  norm_num [FinancialAnalyzer.get_financial_health_score, pymin, pymax]

/-- Claim C1 (amended): on net_worth 50000, income 5000, expenses 2500,
debt ratio 0.15 the code returns savings_rate 2.5, debt_ratio 21.25,
emergency_fund 25, income_stability 15, overall 63.75 and rating GOOD. -/
theorem health_example_actual :
    (FinancialAnalyzer.get_financial_health_score 50000 5000 2500 0.15).breakdown =
      ⟨2.5, 21.25, 25, 15⟩ ∧
    (FinancialAnalyzer.get_financial_health_score 50000 5000 2500 0.15).overall_score = 63.75 ∧
    (FinancialAnalyzer.get_financial_health_score 50000 5000 2500 0.15).rating = "GOOD" := by
  norm_num [FinancialAnalyzer.get_financial_health_score, pymin, pymax,
    FinancialAnalyzer._get_health_rating]

/-- Claim C2 (code bug evidence): with negative net worth the emergency-fund
sub-score is negative (no lower clamp), and with negative debt ratio the
debt sub-score exceeds 25 (no upper clamp), contradicting the documented
0-25 bands. -/
theorem health_subscore_out_of_range :
    (FinancialAnalyzer.get_financial_health_score (-6000) 5000 1000 (-1)).breakdown.emergency_fund = -25 ∧
    (FinancialAnalyzer.get_financial_health_score (-6000) 5000 1000 (-1)).breakdown.debt_ratio = 50 ∧
    (FinancialAnalyzer.get_financial_health_score (-6000) 5000 1000 (-1)).breakdown.emergency_fund < 0 ∧
    25 < (FinancialAnalyzer.get_financial_health_score (-6000) 5000 1000 (-1)).breakdown.debt_ratio := by
  norm_num [FinancialAnalyzer.get_financial_health_score, pymin, pymax]

/-- Claim C3 (code bug evidence): `analyze_budget_performance` on an empty
transaction list raises (the empty DataFrame has no `date` column), instead
of returning a structured result. -/
theorem budget_empty_raises :
    FinancialAnalyzer.analyze_budget_performance ⟨2025, 10⟩ [] [("groceries", 400)] =
      Except.error "KeyError: date" := rfl

/-- Claim C8: the trend classifier returns STABLE on every constant amount
sequence, of any length. -/
theorem trend_const_stable (amounts : List ℚ) (c : ℚ) (h : ∀ x ∈ amounts, x = c) :
    FinancialAnalyzer._calculate_trend amounts = "STABLE" := by
  unfold FinancialAnalyzer._calculate_trend
  by_cases hl : amounts.length < 2
  · simp [hl]
  · rw [if_neg hl]
    have hlen : 2 ≤ amounts.length := Nat.not_lt.mp hl
    have ht : amounts.take (amounts.length / 2) ≠ [] := by
      refine List.length_pos.mp ?_
      rw [List.length_take]
      omega
    have hd : amounts.drop (amounts.length / 2) ≠ [] := by
      refine List.length_pos.mp ?_
      rw [List.length_drop]
      omega
    have h1 : npMeanQ (amounts.take (amounts.length / 2)) = c :=
      npMeanQ_const ht fun x hx => h x (List.mem_of_mem_take hx)
    have h2 : npMeanQ (amounts.drop (amounts.length / 2)) = c :=
      npMeanQ_const hd fun x hx => h x (List.mem_of_mem_drop hx)
    simp only [h1, h2, sub_self, zero_div, ite_self]
    norm_num

/-- Witness for C8 at the constant sequence `[7, 7, 7]`. -/
theorem trend_const_stable_witness :
    (∀ x ∈ ([7, 7, 7] : List ℚ), x = 7) ∧
      FinancialAnalyzer._calculate_trend [7, 7, 7] = "STABLE" :=
  ⟨by decide, trend_const_stable [7, 7, 7] 7 (by decide)⟩

/-- Claim C7: on a category expense history of at least 3 identical values
the inline detector's z-score is 0 and nothing is flagged (no reason). -/
theorem zscore_const_not_flagged (expenses : List ℚ) (c : ℚ) (h3 : 3 ≤ expenses.length)
    (h : ∀ x ∈ expenses, x = c) :
    FinancialAnalyzer.detectZ expenses = 0 ∧
      FinancialAnalyzer._detect_anomalies expenses 2 = (false, none) := by
  have hstd : npStd expenses = 0 := npStd_of_var_zero (npVarQ_const h)
  have hz : FinancialAnalyzer.detectZ expenses = 0 := by
    unfold FinancialAnalyzer.detectZ
    rw [if_neg]
    rw [hstd]
    exact lt_irrefl 0
  refine ⟨hz, ?_⟩
  unfold FinancialAnalyzer._detect_anomalies
  rw [if_neg (by omega), hz, if_neg (by norm_num)]

/-- The OVER / WARNING / ON_TRACK classification of a spent percentage:
the three conditions are mutually exclusive and cover the whole line. -/
theorem status_iff (q : ℚ) :
    ((if q > 100 then "OVER" else if q > 80 then "WARNING" else "ON_TRACK") = "OVER" ↔
        100 < q) ∧
    ((if q > 100 then "OVER" else if q > 80 then "WARNING" else "ON_TRACK") = "WARNING" ↔
        80 < q ∧ q ≤ 100) ∧
    ((if q > 100 then "OVER" else if q > 80 then "WARNING" else "ON_TRACK") = "ON_TRACK" ↔
        q ≤ 80) := by
  split_ifs with h1 h2 <;>
    refine ⟨?_, ?_, ?_⟩ <;> simp_all <;> first | linarith | (constructor <;> intro h <;> linarith)

/-- Claim C5: in every `BudgetStatus` produced by `analyze_budget_performance`,
the status is OVER iff spent_percent > 100, WARNING iff 80 < spent_percent
≤ 100, and ON_TRACK iff spent_percent ≤ 80 — so exactly one holds and the
three ranges partition the line with boundaries at 80 and 100. -/
theorem budget_status_partition (now : FinancialAnalyzer.MonthDate)
    (transactions : List FinancialAnalyzer.ATx) (budgets : List (String × ℚ))
    (perf : List (String × FinancialAnalyzer.BudgetStatus))
    (h : FinancialAnalyzer.analyze_budget_performance now transactions budgets =
      Except.ok perf) :
    ∀ p ∈ perf,
      (p.2.status = "OVER" ↔ 100 < p.2.spent_percent) ∧
      (p.2.status = "WARNING" ↔ 80 < p.2.spent_percent ∧ p.2.spent_percent ≤ 100) ∧
      (p.2.status = "ON_TRACK" ↔ p.2.spent_percent ≤ 80) := by
  intro p hp
  unfold FinancialAnalyzer.analyze_budget_performance at h
  split at h
  · cases h
  · rw [Except.ok.injEq] at h
    subst h
    obtain ⟨⟨c, b⟩, -, rfl⟩ := List.mem_map.mp hp
    simp only [FinancialAnalyzer.budgetEntry]
    exact status_iff _

/-- Witness for C5 on a concrete current-month transaction list
(spent 420 against a 400 budget: 105%, OVER). -/
theorem budget_status_partition_witness :
    FinancialAnalyzer.analyze_budget_performance exNow exBudgetTxs exBudgets =
      Except.ok exBudgetPerf ∧
    ∀ p ∈ exBudgetPerf,
      (p.2.status = "OVER" ↔ 100 < p.2.spent_percent) ∧
      (p.2.status = "WARNING" ↔ 80 < p.2.spent_percent ∧ p.2.spent_percent ≤ 100) ∧
      (p.2.status = "ON_TRACK" ↔ p.2.spent_percent ≤ 80) :=
  ⟨by norm_num [FinancialAnalyzer.analyze_budget_performance, FinancialAnalyzer.budgetEntry,
      FinancialAnalyzer.currentMonth, FinancialAnalyzer.categorySpent,
      exNow, exBudgetTxs, exBudgets, exBudgetPerf],
   budget_status_partition exNow exBudgetTxs exBudgets exBudgetPerf
     (by norm_num [FinancialAnalyzer.analyze_budget_performance, FinancialAnalyzer.budgetEntry,
        FinancialAnalyzer.currentMonth, FinancialAnalyzer.categorySpent,
        exNow, exBudgetTxs, exBudgets, exBudgetPerf])⟩

/-- Witness for C7 at the constant expense history `[5, 5, 5]`. -/
theorem zscore_const_not_flagged_witness :
    (3 ≤ ([5, 5, 5] : List ℚ).length ∧ ∀ x ∈ ([5, 5, 5] : List ℚ), x = 5) ∧
      (FinancialAnalyzer.detectZ [5, 5, 5] = 0 ∧
        FinancialAnalyzer._detect_anomalies [5, 5, 5] 2 = (false, none)) :=
  ⟨⟨by decide, by decide⟩, zscore_const_not_flagged [5, 5, 5] 5 (by decide) (by decide)⟩

/-- Rounding an integer changes nothing. -/
theorem pyRoundQ_intCast (k : ℤ) : pyRoundQ (k : ℚ) = k := by
  unfold pyRoundQ
  rw [Int.fract_intCast, Int.floor_intCast]
  norm_num

/-- The rounded value is at least the floor. -/
theorem pyRoundQ_ge_floor (x : ℚ) : ⌊x⌋ ≤ pyRoundQ x := by
  unfold pyRoundQ
  split_ifs <;> omega

/-- The rounded value is at most the floor plus one. -/
theorem pyRoundQ_le_floor_add_one (x : ℚ) : pyRoundQ x ≤ ⌊x⌋ + 1 := by
  unfold pyRoundQ
  split_ifs <;> omega

/-- Python's banker's rounding is monotone. -/
theorem pyRoundQ_mono {a b : ℚ} (hab : a ≤ b) : pyRoundQ a ≤ pyRoundQ b := by
  rcases lt_or_eq_of_le (Int.floor_le_floor hab) with hf | hf
  · have h1 := pyRoundQ_le_floor_add_one a
    have h2 := pyRoundQ_ge_floor b
    omega
  · have hfr : Int.fract a ≤ Int.fract b := by
      simp only [Int.fract]
      rw [hf]
      linarith
    unfold pyRoundQ
    rw [← hf]
    split_ifs <;> first | omega | linarith

/-- Rounding to two decimals is monotone. -/
theorem r2Q_mono {a b : ℚ} (hab : a ≤ b) : r2Q a ≤ r2Q b := by
  unfold r2Q
  have h : pyRoundQ (100 * a) ≤ pyRoundQ (100 * b) := pyRoundQ_mono (by linarith)
  have h' : ((pyRoundQ (100 * a) : ℤ) : ℚ) ≤ ((pyRoundQ (100 * b) : ℤ) : ℚ) := by
    exact_mod_cast h
  linarith

/-- `r2Q` produces an integer number of cents. -/
theorem r2Q_cents (x : ℚ) : ∃ k : ℤ, r2Q x = (k : ℚ) / 100 :=
  ⟨pyRoundQ (100 * x), rfl⟩

/-- `r2Q` fixes every integer number of cents. -/
theorem r2Q_fixed {x : ℚ} (h : ∃ k : ℤ, x = (k : ℚ) / 100) : r2Q x = x := by
  obtain ⟨k, rfl⟩ := h
  unfold r2Q
  rw [show (100 : ℚ) * ((k : ℚ) / 100) = (k : ℚ) by field_simp, pyRoundQ_intCast]

/-- A sum of integer-cent values is an integer-cent value. -/
theorem cents_sum {l : List ℚ} (h : ∀ x ∈ l, ∃ k : ℤ, x = (k : ℚ) / 100) :
    ∃ K : ℤ, l.sum = (K : ℚ) / 100 := by
  induction l with
  | nil => exact ⟨0, by simp⟩
  | cons a l ih =>
    obtain ⟨k, hk⟩ := h a (List.mem_cons_self a l)
    obtain ⟨K, hK⟩ := ih fun x hx => h x (List.mem_cons_of_mem a hx)
    refine ⟨k + K, ?_⟩
    rw [List.sum_cons, hk, hK]
    push_cast
    ring

/-- Rounding a sum of already-rounded values changes nothing. -/
theorem r2Q_sum_of_r2Q {l : List ℚ} (h : ∀ x ∈ l, ∃ y, x = r2Q y) :
    r2Q l.sum = l.sum := by
  refine r2Q_fixed (cents_sum fun x hx => ?_)
  obtain ⟨y, rfl⟩ := h x hx
  exact r2Q_cents y

/-- Claim C6 (counterexample): on the empty transaction list the result of
`optimize_savings` carries no `total_potential_annual_savings` at all — the
code's empty-input branch returns a dict holding only the empty
optimizations list — so the total does not equal the sum of the listed
`potential_savings` entries (that sum would be reported as `some 0`). -/
theorem optimize_savings_empty_no_total :
    (SavingsOptimizer.optimize_savings [] 5000).total_potential_annual_savings = none ∧
    ¬ ((SavingsOptimizer.optimize_savings [] 5000).total_potential_annual_savings =
        some (((SavingsOptimizer.optimize_savings [] 5000).optimizations.map
          (·.potential_savings)).sum)) := by
  constructor
  · rfl
  · intro h
    exact Option.noConfusion ((rfl : (SavingsOptimizer.optimize_savings [] 5000).total_potential_annual_savings = none) ▸ h)

/-- Claim C6 (amended): for every non-empty transaction list the
optimizations list is descending in `current_spend`, and the reported total
equals the sum of the listed `potential_savings`; the empty list is excluded
because there the code returns a result without any total. -/
theorem optimize_savings_sorted_sum (transactions : List PTx) (budget_limit : ℚ)
    (h : transactions ≠ []) :
    (SavingsOptimizer.optimize_savings transactions budget_limit).optimizations.Pairwise
      (fun a b => b.current_spend ≤ a.current_spend) ∧
    (SavingsOptimizer.optimize_savings transactions budget_limit).total_potential_annual_savings
      = some (((SavingsOptimizer.optimize_savings transactions budget_limit).optimizations.map
          (·.potential_savings)).sum) := by
  unfold SavingsOptimizer.optimize_savings
  rw [if_neg (by simpa using h)]
  constructor
  · have hs := @List.sorted_mergeSort (String × ℚ) (fun a b => decide (b.2 ≤ a.2))
      (fun a b c hab hbc => by
        simp only [decide_eq_true_eq] at *
        exact le_trans hbc hab)
      (fun a b => by
        simp only [Bool.or_eq_true, decide_eq_true_eq]
        exact le_total b.2 a.2)
      ((SavingsOptimizer.categoryTotals transactions).filter
        fun p => decide (budget_limit * 0.25 < p.2))
    have hs' := hs.imp
      (S := fun (a b : String × ℚ) => b.2 ≤ a.2) fun hab => by simpa using hab
    exact List.Pairwise.map SavingsOptimizer.mkOptEntry (fun a b hab => r2Q_mono hab) hs'
  · show some _ = some _
    rw [Option.some.injEq]
    refine r2Q_sum_of_r2Q fun x hx => ?_
    obtain ⟨e, he, rfl⟩ := List.mem_map.mp hx
    obtain ⟨p, -, rfl⟩ := List.mem_map.mp he
    exact ⟨p.2 * 0.15 * 12, rfl⟩

/-- Witness for C6 on the spec's Example 4 data. -/
theorem optimize_savings_sorted_sum_witness :
    exOptTxs ≠ [] ∧
    ((SavingsOptimizer.optimize_savings exOptTxs 5000).optimizations.Pairwise
      (fun a b => b.current_spend ≤ a.current_spend) ∧
    (SavingsOptimizer.optimize_savings exOptTxs 5000).total_potential_annual_savings
      = some (((SavingsOptimizer.optimize_savings exOptTxs 5000).optimizations.map
          (·.potential_savings)).sum)) :=
  ⟨by simp [exOptTxs, ptx], optimize_savings_sorted_sum exOptTxs 5000 (by simp [exOptTxs, ptx])⟩

/-- The confidence score of `_calculate_confidence` always lies in
`[0.3, 1]`, by the `max`/`min` clamps. -/
theorem confidence_bounds (amounts : List ℚ) :
    0.3 ≤ SpendingPredictor._calculate_confidence amounts ∧
      SpendingPredictor._calculate_confidence amounts ≤ 1 := by
  unfold SpendingPredictor._calculate_confidence
  split_ifs
  · norm_num
  · constructor
    · apply le_min
      · norm_num
      · apply le_max_left
    · exact le_trans (min_le_left _ _) (by norm_num)

/-- Claim C4: on any accepted input (5 or more transactions),
`predict_spending` succeeds, every predicted amount is non-negative and
every confidence value lies in `[0.3, 1]`. -/
theorem predict_spending_bounds (transactions : List PTx) (h : 5 ≤ transactions.length) :
    SpendingPredictor.predict_spending transactions =
      Except.ok (SpendingPredictor.predictPayload transactions) ∧
    (∀ p ∈ (SpendingPredictor.predictPayload transactions).predicted_spending, 0 ≤ p.2) ∧
    (∀ p ∈ (SpendingPredictor.predictPayload transactions).confidence,
      0.3 ≤ p.2 ∧ p.2 ≤ 1) := by
  refine ⟨?_, ?_, ?_⟩
  · unfold SpendingPredictor.predict_spending
    rw [if_neg (by omega)]
  · intro p hp
    obtain ⟨q, -, hq⟩ := List.mem_filterMap.mp hp
    unfold SpendingPredictor.predictionOf at hq
    split at hq
    · cases hq
    · obtain rfl := Option.some.inj hq
      exact le_max_left 0 _
  · intro p hp
    obtain ⟨q, -, hq⟩ := List.mem_filterMap.mp hp
    unfold SpendingPredictor.confidenceOf at hq
    split at hq
    · cases hq
    · obtain rfl := Option.some.inj hq
      exact confidence_bounds q.2

/-- Witness for C4 on a concrete 5-transaction history. -/
theorem predict_spending_bounds_witness :
    5 ≤ exPredTxs.length ∧
    (SpendingPredictor.predict_spending exPredTxs =
        Except.ok (SpendingPredictor.predictPayload exPredTxs) ∧
      (∀ p ∈ (SpendingPredictor.predictPayload exPredTxs).predicted_spending, 0 ≤ p.2) ∧
      (∀ p ∈ (SpendingPredictor.predictPayload exPredTxs).confidence,
        0.3 ≤ p.2 ∧ p.2 ≤ 1)) :=
  ⟨by decide, predict_spending_bounds exPredTxs (by decide)⟩

/-- Membership in the last-5 window implies membership in the history. -/
theorem mem_of_last5 {α : Type} {a : α} {l : List α} (h : a ∈ AnomalyDetector.last5 l) :
    a ∈ l :=
  List.mem_of_mem_drop h

/-- The guarded z-score of the windowed detector crosses a threshold in
absolute value exactly when the unguarded formula does: when the standard
deviation vanishes, every history value equals the mean, making the raw
formula zero as well. -/
theorem abs_anomalyZ_iff (amounts : List ℚ) (v : ℚ) (hv : v ∈ amounts) (t : ℝ) :
    |AnomalyDetector.anomalyZ amounts v| > t ↔
      |AnomalyDetector.zFormula amounts v| > t := by
  unfold AnomalyDetector.anomalyZ
  split_ifs with hs
  · exact Iff.rfl
  · have hstd : npStd amounts = 0 := npStd_eq_zero_of_not_pos hs
    have hvm : v = npMeanQ amounts := eq_mean_of_npStd_zero hstd hv
    have hz : AnomalyDetector.zFormula amounts v = 0 := by
      unfold AnomalyDetector.zFormula
      rw [hvm, sub_self, zero_div]
    rw [hz]

/-- Claim C9: with at least 10 transactions, an entry is in the anomaly
report exactly when it is built from one of the last 5 transactions of a
category holding at least 3 transactions whose z-score
`(value - mean) / (std + 0.01)` over the category's full history exceeds
2.5 in absolute value. -/
theorem detect_anomalies_characterization (transactions : List PTx)
    (h : 10 ≤ transactions.length) (e : AnomalyDetector.AnomalyEntry) :
    e ∈ (AnomalyDetector.detect_anomalies 2.5 transactions).anomalies ↔
      ∃ p ∈ AnomalyDetector._group_by_category_with_metadata transactions,
        3 ≤ p.2.length ∧
        ∃ item ∈ AnomalyDetector.last5 p.2,
          2.5 < |AnomalyDetector.zFormula (p.2.map (·.amount)) item.amount| ∧
          e = AnomalyDetector.mkAnomalyEntry p.1 (p.2.map (·.amount)) item := by
  have hanom : (AnomalyDetector.detect_anomalies 2.5 transactions).anomalies =
      AnomalyDetector.anomaliesOf 2.5 transactions := by
    unfold AnomalyDetector.detect_anomalies
    rw [if_neg (by omega)]
  rw [hanom]
  unfold AnomalyDetector.anomaliesOf
  rw [List.mem_flatMap]
  constructor
  · rintro ⟨p, hp, he⟩
    refine ⟨p, hp, ?_⟩
    unfold AnomalyDetector.categoryAnomalies at he
    split_ifs at he with h3
    · simp at he
    · refine ⟨by omega, ?_⟩
      obtain ⟨item, hitem, hif⟩ := List.mem_filterMap.mp he
      split_ifs at hif with hz
      · obtain rfl := Option.some.inj hif
        have hv : item.amount ∈ p.2.map (·.amount) :=
          List.mem_map_of_mem _ (mem_of_last5 hitem)
        exact ⟨item, hitem, (abs_anomalyZ_iff _ _ hv 2.5).mp hz, rfl⟩
  · rintro ⟨p, hp, h3, item, hitem, hz, rfl⟩
    refine ⟨p, hp, ?_⟩
    unfold AnomalyDetector.categoryAnomalies
    rw [if_neg (by omega)]
    refine List.mem_filterMap.mpr ⟨item, hitem, ?_⟩
    have hv : item.amount ∈ p.2.map (·.amount) :=
      List.mem_map_of_mem _ (mem_of_last5 hitem)
    rw [if_pos ((abs_anomalyZ_iff _ _ hv 2.5).mpr hz)]

/-- Witness for C9 at a concrete 10-transaction history, instantiated at the
entry built from the groceries outlier. -/
theorem detect_anomalies_characterization_witness :
    10 ≤ exAnomTxs.length ∧
    (AnomalyDetector.mkAnomalyEntry "groceries" [50, 51, 49, 50, 500]
        ⟨500, "2024-12-05", ""⟩ ∈
        (AnomalyDetector.detect_anomalies 2.5 exAnomTxs).anomalies ↔
      ∃ p ∈ AnomalyDetector._group_by_category_with_metadata exAnomTxs,
        3 ≤ p.2.length ∧
        ∃ item ∈ AnomalyDetector.last5 p.2,
          2.5 < |AnomalyDetector.zFormula (p.2.map (·.amount)) item.amount| ∧
          AnomalyDetector.mkAnomalyEntry "groceries" [50, 51, 49, 50, 500]
              ⟨500, "2024-12-05", ""⟩ =
            AnomalyDetector.mkAnomalyEntry p.1 (p.2.map (·.amount)) item) :=
  ⟨by decide, detect_anomalies_characterization exAnomTxs (by decide) _⟩

/-- Grouping ignores whether the `dict.get` defaults were already applied. -/
theorem group_defaulted (transactions : List PTx) :
    SpendingPredictor._group_by_category (transactions.map defaulted) =
      SpendingPredictor._group_by_category transactions := by
  unfold SpendingPredictor._group_by_category
  rw [List.foldl_map]
  congr 1

/-- Metadata grouping ignores whether the defaults were already applied. -/
theorem groupMeta_defaulted (transactions : List PTx) :
    AnomalyDetector._group_by_category_with_metadata (transactions.map defaulted) =
      AnomalyDetector._group_by_category_with_metadata transactions := by
  unfold AnomalyDetector._group_by_category_with_metadata
  rw [List.foldl_map]
  congr 1

/-- Category totals ignore whether the defaults were already applied. -/
theorem totals_defaulted (transactions : List PTx) :
    SavingsOptimizer.categoryTotals (transactions.map defaulted) =
      SavingsOptimizer.categoryTotals transactions := by
  unfold SavingsOptimizer.categoryTotals
  rw [List.foldl_map]
  congr 1

/-- Claim C10: `predict_spending`, `detect_anomalies` and `optimize_savings`
treat a transaction with a missing category exactly as one labelled
`"other"`, and a missing amount exactly as `0` (and likewise missing
date/description as `""`): the analysis of any transaction list equals the
analysis of its explicitly-defaulted version, and no input is rejected. -/
theorem missing_fields_defaulted (transactions : List PTx) (budget_limit : ℚ) (t : ℝ) :
    SpendingPredictor.predict_spending (transactions.map defaulted) =
      SpendingPredictor.predict_spending transactions ∧
    AnomalyDetector.detect_anomalies t (transactions.map defaulted) =
      AnomalyDetector.detect_anomalies t transactions ∧
    SavingsOptimizer.optimize_savings (transactions.map defaulted) budget_limit =
      SavingsOptimizer.optimize_savings transactions budget_limit := by
  refine ⟨?_, ?_, ?_⟩
  · unfold SpendingPredictor.predict_spending
    rw [List.length_map]
    split_ifs
    · rfl
    · unfold SpendingPredictor.predictPayload
      rw [group_defaulted]
  · unfold AnomalyDetector.detect_anomalies
    rw [List.length_map]
    split_ifs
    · rfl
    · unfold AnomalyDetector.anomaliesOf
      rw [groupMeta_defaulted]
  · have hie : (transactions.map defaulted).isEmpty = transactions.isEmpty := by
      cases transactions <;> rfl
    unfold SavingsOptimizer.optimize_savings
    rw [hie]
    split_ifs
    · rfl
    · unfold SavingsOptimizer.optimizationsOf
      rw [totals_defaulted]

end FinReason
